import Mathlib

/-
Verification of the helper module src/src/utils.py against its specification.

The module is thin glue over two external collaborators:
  * the dataframe engine (pyspark): `withColumn`, `lit(v).cast(t)`,
    `col(c).cast(t)`, `createDataFrame`;
  * the expectation library (great_expectations, classic `Dataset` /
    `SparkDFDataset` API): the `expect_*` methods.

We embed the module's functions from the source, and model the two external
collaborators' observable behaviour explicitly:
  * the engine's `cast` parses the target type string with its own DDL
    parser (raising a parse error on an unrecognised name) and converts
    values with null-on-failure semantics (the engine's non-ANSI default);
  * the expectation library evaluates each check against the wrapped
    dataframe, returns a structured result with a success flag, and records
    the expectation's configuration in the wrapped dataset's expectation
    suite (replacing any previously recorded configuration of the same
    expectation type and column, then appending at the end); a check that
    raises records nothing.

Datasets are modelled columnar: an ordered list of named, typed columns,
each carrying its list of values, plus the row count.  Python exceptions
become `Except` errors; the error type carries both the engine's actual
exception kinds and the specification's proposed error taxonomy
(`invalidTypeError`, `valueCastError`, `emptyReportError`), so that theorems
can state which of the two the code actually produces.
-/

deriving instance DecidableEq for Except

namespace DataQuality

/-- Primitive column types recognised by the engine's DDL type parser
(restricted to the ones exercised by this module's contract). -/
inductive PrimType where
  | int
  | str
  | bool
  deriving DecidableEq

/-- A cell value: the engine's values are nullable. -/
inductive Value where
  | vNull
  | vInt (i : Int)
  | vStr (s : String)
  | vBool (b : Bool)
  deriving DecidableEq

/-- Models the engine's DDL type parser, invoked by `Column.cast` when it is
given a type as a string (as utils.py always does).  Unknown names make the
engine raise a parse exception. -/
def parseDataType : String → Option PrimType
  | "int" => some .int
  | "integer" => some .int
  | "string" => some .str
  | "boolean" => some .bool
  | _ => none

/-- Canonical string name of a primitive type, as one would read it off the
dataset's schema. -/
def typeName : PrimType → String
  | .int => "int"
  | .str => "string"
  | .bool => "boolean"

/-- Parses a non-empty all-digit character list as a natural number; any
other list is rejected. -/
def parseNatDigits : List Char → Option Nat
  | [] => none
  | cs =>
    if cs.all (fun c => c.isDigit) then
      some (cs.foldl (fun n c => n * 10 + (c.toNat - 48)) 0)
    else none

/-- Models the engine's parsing of a decimal string as an integer during a
string-to-int cast: an optional leading minus sign followed by digits;
anything else fails (and the cast yields null). -/
def parseIntLit (s : String) : Option Int :=
  match s.data with
  | '-' :: cs => (parseNatDigits cs).map (fun n => -(n : Int))
  | cs => (parseNatDigits cs).map (fun n => (n : Int))

/-- Models the engine's value conversion for `cast`: a null stays null, a
conversion that is impossible yields null rather than an error (the engine's
non-ANSI default), and a conversion to the value's own type is the
identity. -/
def castValue : Value → PrimType → Value
  | .vNull, _ => .vNull
  | .vInt i, .int => .vInt i
  | .vInt i, .str => .vStr (toString i)
  | .vInt i, .bool => .vBool (i != 0)
  | .vStr s, .str => .vStr s
  | .vStr s, .int =>
    match parseIntLit s with
    | some i => .vInt i
    | none => .vNull
  | .vStr s, .bool =>
    if s = "true" then .vBool true
    else if s = "false" then .vBool false
    else .vNull
  | .vBool b, .bool => .vBool b
  | .vBool b, .int => .vInt (if b then 1 else 0)
  | .vBool b, .str => .vStr (if b then "true" else "false")

/-- Decides whether a value conforms to a declared column type (nulls conform
to every type); the engine's schema guarantees this for every stored value. -/
def conforms : Value → PrimType → Bool
  | .vNull, _ => true
  | .vInt _, .int => true
  | .vStr _, .str => true
  | .vBool _, .bool => true
  | _, _ => false

/-- One named, typed column together with its stored values, in row order. -/
structure ColumnData where
  name : String
  ty : PrimType
  values : List Value
  deriving DecidableEq

/-- A dataframe: an ordered list of columns and the row count.  Well-formed
datasets have each column's value list of length `nrows`, pairwise distinct
column names, and conforming values. -/
structure Dataset where
  cols : List ColumnData
  nrows : Nat
  deriving DecidableEq

/-- Number of columns of a dataset. -/
def column_count (df : Dataset) : Nat := df.cols.length

/-- Number of rows of a dataset. -/
def row_count (df : Dataset) : Nat := df.nrows

/-- Looks up a column by name (first match, as the engine resolves names). -/
def getColumn (df : Dataset) (n : String) : Option ColumnData :=
  df.cols.find? (fun c => c.name = n)

/-- Decides whether a column of the given name exists. -/
def hasColumn (df : Dataset) (n : String) : Bool :=
  df.cols.any (fun c => c.name = n)

/-- Errors.  The first three constructors are the specification's proposed
module-level error taxonomy; the last three are the engine's actual
exceptions (type-parse failure inside `cast`, unresolved column reference,
and plain `ValueError`).  Theorems below establish which constructors the
embedded code can actually produce. -/
inductive Err where
  | invalidTypeError
  | valueCastError
  | emptyReportError
  | parseException (s : String)
  | analysisException (s : String)
  | valueError (s : String)
  deriving DecidableEq

/-- Models the engine's `withColumn`: replace the column in place when the
name already exists, otherwise append a new column at the end. -/
def withColumn (df : Dataset) (n : String) (ty : PrimType) (vals : List Value) : Dataset :=
  if df.cols.any (fun c => c.name = n) then
    { df with cols := df.cols.map (fun c => if c.name = n then ⟨n, ty, vals⟩ else c) }
  else
    { df with cols := df.cols ++ [⟨n, ty, vals⟩] }

/-- Embeds `add_new_field` (src/src/utils.py lines 9-24):
`df.withColumn(new_field, F.lit(new_field_value).cast(field_type))`.
The function performs no validation of its own; the target type string goes
straight to the engine's cast, whose parser raises on an unknown name, and
the literal is converted with the engine's null-on-failure semantics. -/
def add_new_field (df : Dataset) (new_field : String) (new_field_value : Value)
    (field_type : String) : Except Err Dataset :=
  match parseDataType field_type with
  | none => .error (.parseException field_type)
  | some ty => .ok (withColumn df new_field ty
      (List.replicate df.nrows (castValue new_field_value ty)))

/-- Embeds `update_field_type` (src/src/utils.py lines 26-40):
`df.withColumn(field, F.col(field).cast(new_field_type))`.
The cast's type string is parsed first (building the column expression);
resolving `F.col(field)` then raises an analysis exception when the column
is absent; otherwise every stored value is converted with the engine's
null-on-failure semantics. -/
def update_field_type (df : Dataset) (field : String)
    (new_field_type : String) : Except Err Dataset :=
  match parseDataType new_field_type with
  | none => .error (.parseException new_field_type)
  | some ty =>
    match getColumn df field with
    | none => .error (.analysisException field)
    | some col => .ok (withColumn df field ty (col.values.map (fun v => castValue v ty)))

/-- Structured result returned by an expectation check: the expectation's
type name and a success flag (further diagnostic fields of the library's
result object are opaque pass-through and not modelled). -/
structure ExpectationResult where
  expectation_type : String
  success : Bool
  deriving DecidableEq

/-- Identity of a recorded expectation: its type, together with the column
it targets when it is a column expectation.  The expectation library
replaces a previously recorded expectation of the same identity. -/
inductive ExpectationKind where
  | tableColumnCount
  | tableRowCount
  | columnToExist (c : String)
  | columnsMatchOrderedList
  | columnValuesBetween (c : String)
  | columnMinBetween (c : String)
  | columnMaxBetween (c : String)
  | columnValuesUnique (c : String)
  deriving DecidableEq

/-- Configuration recorded in the expectation suite for one check: its
identity plus the numeric parameters it was called with. -/
structure ExpectationConfig where
  kind : ExpectationKind
  args : List Int
  deriving DecidableEq

/-- The validation context: the expectation library's wrapper around one
dataframe.  It holds a reference to the dataframe and accumulates the
expectation suite as checks are called. -/
structure SparkDFDataset where
  spark_df : Dataset
  suite : List ExpectationConfig
  deriving DecidableEq

/-- Embeds `initialize_df` (src/src/utils.py lines 43-53): wraps a dataframe
in a fresh validation context with an empty expectation suite. -/
def init_df (df : Dataset) : SparkDFDataset :=
  ⟨df, []⟩

/-- Models the expectation library's suite update on a successful check:
previously recorded configurations with the same identity are removed and
the new configuration is appended at the end. -/
def recordExpectation (ds : SparkDFDataset) (cfg : ExpectationConfig) : SparkDFDataset :=
  { ds with suite := ds.suite.filter (fun c => decide (c.kind ≠ cfg.kind)) ++ [cfg] }

/-- The integer values stored in a column, nulls and non-numeric values
excluded, as the engine's aggregates see them. -/
def intValues (vs : List Value) : List Int :=
  vs.filterMap (fun v => match v with | .vInt i => some i | _ => none)

/-- Models the expectation library's table-column-count check: it raises a
`ValueError` when the caller supplies `min_value > max_value`, before
looking at the dataframe; otherwise it succeeds exactly when the column
count lies in the inclusive range, and records the expectation. -/
def expect_table_column_count_to_be_between (ds : SparkDFDataset)
    (min_value max_value : Int) : Except Err (ExpectationResult × SparkDFDataset) :=
  if min_value > max_value then
    .error (.valueError "min_value cannot be greater than max_value")
  else
    .ok (⟨"expect_table_column_count_to_be_between",
          decide (min_value ≤ (column_count ds.spark_df : Int) ∧
                  (column_count ds.spark_df : Int) ≤ max_value)⟩,
         recordExpectation ds ⟨.tableColumnCount, [min_value, max_value]⟩)

/-- Models the expectation library's table-row-count check, analogous to the
column-count check. -/
def expect_table_row_count_to_be_between (ds : SparkDFDataset)
    (min_value max_value : Int) : Except Err (ExpectationResult × SparkDFDataset) :=
  if min_value > max_value then
    .error (.valueError "min_value cannot be greater than max_value")
  else
    .ok (⟨"expect_table_row_count_to_be_between",
          decide (min_value ≤ (row_count ds.spark_df : Int) ∧
                  (row_count ds.spark_df : Int) ≤ max_value)⟩,
         recordExpectation ds ⟨.tableRowCount, [min_value, max_value]⟩)

/-- Models the expectation library's column-existence check: succeeds exactly
when the column name occurs in the dataframe's schema; never raises. -/
def expect_column_to_exist (ds : SparkDFDataset) (column : String) :
    Except Err (ExpectationResult × SparkDFDataset) :=
  .ok (⟨"expect_column_to_exist", hasColumn ds.spark_df column⟩,
       recordExpectation ds ⟨.columnToExist column, []⟩)

/-- Models the expectation library's ordered-column-list check: succeeds
exactly when the dataframe's column names, in declared order, equal the
given list. -/
def expect_table_columns_to_match_ordered_list (ds : SparkDFDataset)
    (column_list : List String) : Except Err (ExpectationResult × SparkDFDataset) :=
  .ok (⟨"expect_table_columns_to_match_ordered_list",
        decide (ds.spark_df.cols.map (fun c => c.name) = column_list)⟩,
       recordExpectation ds ⟨.columnsMatchOrderedList, []⟩)

/-- Models the expectation library's column-value-range check over the Spark
engine: referencing an absent column raises an analysis exception; otherwise
the check succeeds exactly when every numeric value lies in the inclusive
range, nulls (and non-numeric comparisons, which the engine evaluates to
null) passing through. -/
def expect_column_values_to_be_between (ds : SparkDFDataset) (column : String)
    (min_value max_value : Int) : Except Err (ExpectationResult × SparkDFDataset) :=
  match getColumn ds.spark_df column with
  | none => .error (.analysisException column)
  | some col =>
    .ok (⟨"expect_column_values_to_be_between",
          (intValues col.values).all (fun i => decide (min_value ≤ i ∧ i ≤ max_value))⟩,
         recordExpectation ds ⟨.columnValuesBetween column, [min_value, max_value]⟩)

/-- Models the expectation library's column-minimum check: the observed
minimum of the column (over non-null numeric values) must lie in the
inclusive range; an empty observation fails; an absent column raises the
engine's analysis exception. -/
def expect_column_min_to_be_between (ds : SparkDFDataset) (column : String)
    (min_value max_value : Int) : Except Err (ExpectationResult × SparkDFDataset) :=
  match getColumn ds.spark_df column with
  | none => .error (.analysisException column)
  | some col =>
    .ok (⟨"expect_column_min_to_be_between",
          match (intValues col.values).min? with
          | none => false
          | some m => decide (min_value ≤ m ∧ m ≤ max_value)⟩,
         recordExpectation ds ⟨.columnMinBetween column, [min_value, max_value]⟩)

/-- Models the expectation library's column-maximum check, analogous to the
column-minimum check. -/
def expect_column_max_to_be_between (ds : SparkDFDataset) (column : String)
    (min_value max_value : Int) : Except Err (ExpectationResult × SparkDFDataset) :=
  match getColumn ds.spark_df column with
  | none => .error (.analysisException column)
  | some col =>
    .ok (⟨"expect_column_max_to_be_between",
          match (intValues col.values).max? with
          | none => false
          | some m => decide (min_value ≤ m ∧ m ≤ max_value)⟩,
         recordExpectation ds ⟨.columnMaxBetween column, [min_value, max_value]⟩)

/-- Models the expectation library's uniqueness check: succeeds exactly when
no non-null value occurs more than once in the column; an absent column
raises the engine's analysis exception. -/
def expect_column_values_to_be_unique (ds : SparkDFDataset) (column : String) :
    Except Err (ExpectationResult × SparkDFDataset) :=
  match getColumn ds.spark_df column with
  | none => .error (.analysisException column)
  | some col =>
    .ok (⟨"expect_column_values_to_be_unique",
          decide (col.values.filter (fun v => decide (v ≠ .vNull))).Nodup⟩,
         recordExpectation ds ⟨.columnValuesUnique column, []⟩)

/-- Embeds `expect_table_column_count` (src/src/utils.py lines 55-64): a
direct delegation to the library's table-column-count check. -/
def expect_table_column_count (df : SparkDFDataset) (min_value max_value : Int) :
    Except Err (ExpectationResult × SparkDFDataset) :=
  expect_table_column_count_to_be_between df min_value max_value

/-- Embeds `expect_table_row_count` (src/src/utils.py lines 66-75). -/
def expect_table_row_count (df : SparkDFDataset) (min_value max_value : Int) :
    Except Err (ExpectationResult × SparkDFDataset) :=
  expect_table_row_count_to_be_between df min_value max_value

/-- Embeds `expect_column_existence` (src/src/utils.py lines 77-85). -/
def expect_column_existence (df : SparkDFDataset) (column_name : String) :
    Except Err (ExpectationResult × SparkDFDataset) :=
  expect_column_to_exist df column_name

/-- Embeds `expect_ordered_column_list` (src/src/utils.py lines 87-95). -/
def expect_ordered_column_list (df : SparkDFDataset) (column_list : List String) :
    Except Err (ExpectationResult × SparkDFDataset) :=
  expect_table_columns_to_match_ordered_list df column_list

/-- Embeds `expect_column_value_range` (src/src/utils.py lines 97-107). -/
def expect_column_value_range (df : SparkDFDataset) (column_name : String)
    (min_value max_value : Int) : Except Err (ExpectationResult × SparkDFDataset) :=
  expect_column_values_to_be_between df column_name min_value max_value

/-- Embeds `expect_column_min_max_range` (src/src/utils.py lines 109-120):
the min check is called first and its returned result is DISCARDED (only its
side effect on the context survives); the function returns whatever the max
check returns. -/
def expect_column_min_max_range (df : SparkDFDataset) (column_name : String)
    (min_value max_value : Int) : Except Err (ExpectationResult × SparkDFDataset) :=
  match expect_column_min_to_be_between df column_name min_value max_value with
  | .error e => .error e
  | .ok (_, df1) => expect_column_max_to_be_between df1 column_name min_value max_value

/-- Embeds `expect_unique_column_values` (src/src/utils.py lines 122-130). -/
def expect_unique_column_values (df : SparkDFDataset) (column_name : String) :
    Except Err (ExpectationResult × SparkDFDataset) :=
  expect_column_values_to_be_unique df column_name

/-- Embeds `show_expectation_results` (src/src/utils.py lines 133-154).  The
outcome dictionary is modelled as its ordered list of (name, success)
entries (insertion order, keys unique).  Each entry becomes one row with the
fixed translation of the success flag; `spark.createDataFrame(rows)` infers
the two-column string schema from the rows and raises a `ValueError` when
the row list is empty, because no schema can be inferred.  The implicit
engine session obtained by `getOrCreate` has no observable effect on the
result and is not modelled. -/
def show_expectation_results (expectation_results : List (String × Bool)) :
    Except Err Dataset :=
  let rows := expectation_results.map
    (fun p => (p.1, if p.2 then "Passed" else "Failed"))
  if rows.isEmpty then
    .error (.valueError "can not infer schema from empty dataset")
  else
    .ok { cols := [⟨"Expectation", .str, rows.map (fun r => .vStr r.1)⟩,
                   ⟨"Status", .str, rows.map (fun r => .vStr r.2)⟩],
          nrows := rows.length }

/-- A one-column integer dataset named "x" holding the given values, used as
a concrete fixture. -/
def dsX (vals : List Int) : Dataset :=
  ⟨[⟨"x", .int, vals.map Value.vInt⟩], vals.length⟩

/-- A one-column, one-row string dataset whose single value cannot be
converted to an integer, used as a concrete fixture. -/
def strAbcDF : Dataset :=
  ⟨[⟨"x", .str, [.vStr "abc"]⟩], 1⟩

/- Helper lemmas shared by the claim theorems. -/

theorem recordExpectation_spark_df (ds : SparkDFDataset) (cfg : ExpectationConfig) :
    (recordExpectation ds cfg).spark_df = ds.spark_df := rfl

theorem castValue_of_conforms (v : Value) (ty : PrimType) (h : conforms v ty = true) :
    castValue v ty = v := by
  cases v <;> cases ty <;> simp_all [conforms, castValue]

theorem parseDataType_typeName (ty : PrimType) : parseDataType (typeName ty) = some ty := by
  cases ty <;> rfl

theorem find?_append_fresh (n : String) (c : ColumnData) (l : List ColumnData)
    (h : l.any (fun d => d.name = n) = false) (hc : c.name = n) :
    (l ++ [c]).find? (fun d => d.name = n) = some c := by
  induction l with
  | nil => simp [List.find?, hc]
  | cons d l ih =>
    simp only [List.any_cons, Bool.or_eq_false_iff] at h
    simp only [List.cons_append, List.find?_cons, h.1]
    exact ih h.2

theorem add_new_field_ok (df : Dataset) (n : String) (v : Value) (t : String)
    (ty : PrimType) (h1 : parseDataType t = some ty) (h2 : hasColumn df n = false) :
    add_new_field df n v t =
      Except.ok ⟨df.cols ++ [⟨n, ty, List.replicate df.nrows (castValue v ty)⟩], df.nrows⟩ := by
  unfold hasColumn at h2
  simp [add_new_field, h1, withColumn, h2]

end DataQuality

namespace DataQuality

/-- C2: for every dataset `D`, fresh column name `n`, value `v` and valid
type `T`, `add_new_field D n v T` succeeds with a dataset of one more
column, the same row count, and every row holding the literal `v` cast to
`T` in column `n`. -/
theorem add_new_field_adds_one_column (df : Dataset) (n : String) (v : Value) (t : String)
    (ty : PrimType) (h1 : parseDataType t = some ty) (h2 : hasColumn df n = false) :
    add_new_field df n v t =
      Except.ok ⟨df.cols ++ [⟨n, ty, List.replicate df.nrows (castValue v ty)⟩], df.nrows⟩ ∧
    column_count (⟨df.cols ++ [⟨n, ty, List.replicate df.nrows (castValue v ty)⟩],
        df.nrows⟩ : Dataset) = column_count df + 1 ∧
    row_count (⟨df.cols ++ [⟨n, ty, List.replicate df.nrows (castValue v ty)⟩],
        df.nrows⟩ : Dataset) = row_count df ∧
    getColumn (⟨df.cols ++ [⟨n, ty, List.replicate df.nrows (castValue v ty)⟩],
        df.nrows⟩ : Dataset) n = some ⟨n, ty, List.replicate (row_count df) (castValue v ty)⟩ := by
  refine ⟨add_new_field_ok df n v t ty h1 h2, ?_, rfl, ?_⟩
  · simp [column_count]
  · exact find?_append_fresh n _ df.cols h2 rfl

/-- Witness for C2 at the concrete dataset `dsX [1, 2]`, fresh name "n",
value 7 and type "int". -/
theorem add_new_field_adds_one_column_witness :
    parseDataType "int" = some PrimType.int ∧ hasColumn (dsX [1, 2]) "n" = false ∧
    add_new_field (dsX [1, 2]) "n" (.vInt 7) "int" =
      Except.ok ⟨(dsX [1, 2]).cols ++
        [⟨"n", .int, List.replicate (dsX [1, 2]).nrows (castValue (.vInt 7) .int)⟩],
        (dsX [1, 2]).nrows⟩ ∧
    column_count (⟨(dsX [1, 2]).cols ++
        [⟨"n", .int, List.replicate (dsX [1, 2]).nrows (castValue (.vInt 7) .int)⟩],
        (dsX [1, 2]).nrows⟩ : Dataset) = column_count (dsX [1, 2]) + 1 :=
  ⟨by decide, by decide,
   (add_new_field_adds_one_column (dsX [1, 2]) "n" (.vInt 7) "int" .int (by decide) (by decide)).1,
   (add_new_field_adds_one_column (dsX [1, 2]) "n" (.vInt 7) "int" .int (by decide)
     (by decide)).2.1⟩

/-- C10: when the supplied literal cannot be represented in the (valid)
target type, `add_new_field` does not raise: it succeeds and the new column
holds null in every row, so the caller receives no error signal. -/
theorem add_new_field_bad_literal_nulls (df : Dataset) (n : String) (v : Value) (t : String)
    (ty : PrimType) (h1 : parseDataType t = some ty) (h2 : hasColumn df n = false)
    (h3 : castValue v ty = .vNull) :
    add_new_field df n v t =
      Except.ok ⟨df.cols ++ [⟨n, ty, List.replicate df.nrows Value.vNull⟩], df.nrows⟩ ∧
    column_count (⟨df.cols ++ [⟨n, ty, List.replicate df.nrows Value.vNull⟩],
        df.nrows⟩ : Dataset) = column_count df + 1 ∧
    row_count (⟨df.cols ++ [⟨n, ty, List.replicate df.nrows Value.vNull⟩],
        df.nrows⟩ : Dataset) = row_count df ∧
    getColumn (⟨df.cols ++ [⟨n, ty, List.replicate df.nrows Value.vNull⟩],
        df.nrows⟩ : Dataset) n = some ⟨n, ty, List.replicate (row_count df) Value.vNull⟩ := by
  have h := add_new_field_ok df n v t ty h1 h2
  rw [h3] at h
  refine ⟨h, ?_, rfl, ?_⟩
  · simp [column_count]
  · exact find?_append_fresh n _ df.cols h2 rfl

/-- Witness for C10: the string "abc" cannot be represented as an integer,
yet adding it as an "int" column succeeds with nulls. -/
theorem add_new_field_bad_literal_nulls_witness :
    parseDataType "int" = some PrimType.int ∧ hasColumn (dsX [1, 2]) "bad" = false ∧
    castValue (.vStr "abc") PrimType.int = .vNull ∧
    add_new_field (dsX [1, 2]) "bad" (.vStr "abc") "int" =
      Except.ok ⟨(dsX [1, 2]).cols ++
        [⟨"bad", .int, List.replicate (dsX [1, 2]).nrows Value.vNull⟩], (dsX [1, 2]).nrows⟩ :=
  ⟨by decide, by decide, by decide,
   (add_new_field_bad_literal_nulls (dsX [1, 2]) "bad" (.vStr "abc") "int" .int (by decide)
     (by decide) (by decide)).1⟩

/-- C3: casting a column to its own current declared type is a no-op: for a
well-formed dataset (distinct column names, values conforming to the
declared type) the result equals the input dataset exactly. -/
theorem update_field_type_self_cast_noop (df : Dataset) (c : String) (col : ColumnData)
    (hnd : (df.cols.map (fun d => d.name)).Nodup)
    (hcol : getColumn df c = some col)
    (hconf : ∀ v ∈ col.values, conforms v col.ty = true) :
    update_field_type df c (typeName col.ty) = Except.ok df := by
  have hmem : col ∈ df.cols := List.mem_of_find?_eq_some hcol
  have hname : col.name = c := by
    have := List.find?_some hcol
    simpa using this
  have hcolEq : (⟨c, col.ty, col.values⟩ : ColumnData) = col := by
    obtain ⟨a, b, vs⟩ := col
    simp only at hname
    rw [hname]
  have hvals : col.values.map (fun v => castValue v col.ty) = col.values := by
    have h : ∀ v ∈ col.values, castValue v col.ty = id v := fun v hv =>
      castValue_of_conforms v col.ty (hconf v hv)
    rw [List.map_congr_left h, List.map_id]
  have hany : df.cols.any (fun d => d.name = c) = true :=
    List.any_eq_true.mpr ⟨col, hmem, by simpa using hname⟩
  have hmap : df.cols.map (fun d =>
      if d.name = c then (⟨c, col.ty, col.values.map (fun v => castValue v col.ty)⟩ : ColumnData)
      else d) = df.cols := by
    rw [hvals]
    have h : ∀ d ∈ df.cols,
        (if d.name = c then (⟨c, col.ty, col.values⟩ : ColumnData) else d) = id d := by
      intro d hd
      by_cases hdc : d.name = c
      · have hdcol : d = col := List.inj_on_of_nodup_map hnd hd hmem (hdc.trans hname.symm)
        rw [if_pos hdc, hcolEq, hdcol]
        rfl
      · rw [if_neg hdc]
        rfl
    rw [List.map_congr_left h, List.map_id]
  simp [update_field_type, parseDataType_typeName, hcol, withColumn, hany, hmap]

/-- Witness for C3 on the concrete two-row integer dataset `dsX [1, 2]` and
its own column "x" of type int. -/
theorem update_field_type_self_cast_noop_witness :
    ((dsX [1, 2]).cols.map (fun d => d.name)).Nodup ∧
    getColumn (dsX [1, 2]) "x" = some ⟨"x", .int, [.vInt 1, .vInt 2]⟩ ∧
    update_field_type (dsX [1, 2]) "x" (typeName .int) = Except.ok (dsX [1, 2]) :=
  ⟨by decide, by decide,
   update_field_type_self_cast_noop (dsX [1, 2]) "x" ⟨"x", .int, [.vInt 1, .vInt 2]⟩
     (by decide) (by decide) (by decide)⟩

/-- C4 counterexample: on a one-row string column whose value "abc" cannot
be converted to int, `update_field_type` does not raise any error — the
call succeeds and the unconvertible value is silently replaced by null, so
no `ValueCastError` is surfaced to the caller. -/
theorem update_field_type_cast_failure_nulls_cex :
    update_field_type strAbcDF "x" "int" =
      Except.ok ⟨[⟨"x", .int, [Value.vNull]⟩], 1⟩ := by decide

/-- C4 amended: `update_field_type` fails with the engine's unresolved
column error when the column is absent; when the column exists it always
succeeds, converting each value with null-on-failure semantics; it can
never produce a `ValueCastError`. -/
theorem update_field_type_error_policy :
    (∀ (df : Dataset) (field t : String) (ty : PrimType),
      parseDataType t = some ty → getColumn df field = none →
      update_field_type df field t = Except.error (Err.analysisException field)) ∧
    (∀ (df : Dataset) (field t : String) (ty : PrimType) (col : ColumnData),
      parseDataType t = some ty → getColumn df field = some col →
      update_field_type df field t =
        Except.ok (withColumn df field ty (col.values.map (fun v => castValue v ty)))) ∧
    (∀ (df : Dataset) (field t : String),
      update_field_type df field t ≠ Except.error Err.valueCastError) := by
  refine ⟨?_, ?_, ?_⟩
  · intro df field t ty h1 h2
    simp [update_field_type, h1, h2]
  · intro df field t ty col h1 h2
    simp [update_field_type, h1, h2]
  · intro df field t h
    unfold update_field_type at h
    cases hp : parseDataType t with
    | none => rw [hp] at h; simp at h
    | some ty =>
      rw [hp] at h
      cases hg : getColumn df field with
      | none => rw [hg] at h; simp at h
      | some col => rw [hg] at h; simp at h

/-- Witness for C4 amended: casting an absent column raises the engine's
unresolved-column error at a concrete input. -/
theorem update_field_type_error_policy_witness :
    update_field_type (dsX [1]) "missing" "int" = Except.error (Err.analysisException "missing") :=
  update_field_type_error_policy.1 (dsX [1]) "missing" "int" .int (by decide) (by decide)

/-- C5 counterexample: an unrecognized type name makes `add_new_field` fail
with the engine's type-parse exception, raised inside the engine's cast
primitive, not with a module-level `InvalidTypeError` raised by validation
at the call boundary. -/
theorem add_new_field_unknown_type_engine_error_cex :
    add_new_field (dsX [1]) "n" (.vInt 1) "varchar" =
      Except.error (Err.parseException "varchar") ∧
    Err.parseException "varchar" ≠ Err.invalidTypeError :=
  ⟨by decide, by decide⟩

/-- C5 amended: `add_new_field` performs no type validation of its own; an
unrecognized type name surfaces as the engine parser's exception from the
cast primitive, and the function can never produce the module-level
`InvalidTypeError`. -/
theorem add_new_field_defers_type_validation :
    (∀ (df : Dataset) (n : String) (v : Value) (t : String),
      parseDataType t = none →
      add_new_field df n v t = Except.error (Err.parseException t)) ∧
    (∀ (df : Dataset) (n : String) (v : Value) (t : String),
      add_new_field df n v t ≠ Except.error Err.invalidTypeError) := by
  constructor
  · intro df n v t hp
    simp [add_new_field, hp]
  · intro df n v t h
    unfold add_new_field at h
    cases hp : parseDataType t with
    | none => rw [hp] at h; simp at h
    | some ty => rw [hp] at h; simp at h

/-- Witness for C5 amended: the unrecognized type name "decimal" produces
the engine's parse exception at a concrete input. -/
theorem add_new_field_defers_type_validation_witness :
    add_new_field (dsX [1]) "m" (.vInt 2) "decimal" =
      Except.error (Err.parseException "decimal") :=
  add_new_field_defers_type_validation.1 (dsX [1]) "m" (.vInt 2) "decimal" (by decide)

/-- C6: for `min <= max` the column-count check succeeds exactly when the
column count lies in the inclusive range, and for `min > max` it raises the
caller-contract `ValueError` uniformly in the dataset, i.e. before any
evaluation of the dataset takes place. -/
theorem expect_table_column_count_range_spec :
    (∀ (ds : SparkDFDataset) (a b : Int), a ≤ b →
      (expect_table_column_count ds a b).map (fun p => p.1.success) =
        Except.ok (decide (a ≤ (column_count ds.spark_df : Int) ∧
                           (column_count ds.spark_df : Int) ≤ b))) ∧
    (∀ (ds : SparkDFDataset) (a b : Int), a > b →
      expect_table_column_count ds a b =
        Except.error (Err.valueError "min_value cannot be greater than max_value")) := by
  constructor
  · intro ds a b hab
    have h : ¬ a > b := not_lt.mpr hab
    simp [expect_table_column_count, expect_table_column_count_to_be_between, h, Except.map]
  · intro ds a b hab
    simp [expect_table_column_count, expect_table_column_count_to_be_between, hab]

/-- Witness for C6: both branches at concrete inputs — range [1, 3] around
the single-column dataset succeeds, and the inverted range [2, 1] raises
the `ValueError`. -/
theorem expect_table_column_count_range_spec_witness :
    (expect_table_column_count (init_df (dsX [1])) 1 3).map (fun p => p.1.success) =
      Except.ok (decide ((1 : Int) ≤ (column_count (init_df (dsX [1])).spark_df : Int) ∧
                         ((column_count (init_df (dsX [1])).spark_df : Int) ≤ 3))) ∧
    expect_table_column_count (init_df (dsX [1])) 2 1 =
      Except.error (Err.valueError "min_value cannot be greater than max_value") :=
  ⟨expect_table_column_count_range_spec.1 (init_df (dsX [1])) 1 3 (by decide),
   expect_table_column_count_range_spec.2 (init_df (dsX [1])) 2 1 (by decide)⟩

/-- C7 counterexample: on the empty outcome map, `show_expectation_results`
does not produce one row per entry (which would be a zero-row report): the
engine's schema inference fails on the empty row list and the call raises
its `ValueError` instead. -/
theorem show_expectation_results_empty_cex :
    show_expectation_results [] =
      Except.error (Err.valueError "can not infer schema from empty dataset") := by decide

/-- C7 amended: for every non-empty outcome map, the report has exactly one
row per entry, in the map's iteration order, with the fixed status
translation of true to "Passed" and false to "Failed", and no reordering,
deduplication or aggregation. -/
theorem show_expectation_results_row_per_entry (m : List (String × Bool)) (hm : m ≠ []) :
    show_expectation_results m =
      Except.ok ⟨[⟨"Expectation", .str, m.map (fun p => Value.vStr p.1)⟩,
                  ⟨"Status", .str,
                   m.map (fun p => Value.vStr (if p.2 then "Passed" else "Failed"))⟩],
                 m.length⟩ := by
  simp only [show_expectation_results, List.isEmpty_iff, List.map_eq_nil_iff]
  rw [if_neg hm]
  simp [List.map_map, Function.comp]

/-- Witness for C7 at the concrete outcome map [("A", true), ("B", false)]:
two rows, in order ("A", "Passed") then ("B", "Failed"). -/
theorem show_expectation_results_row_per_entry_witness :
    show_expectation_results [("A", true), ("B", false)] =
      Except.ok ⟨[⟨"Expectation", .str, [Value.vStr "A", Value.vStr "B"]⟩,
                  ⟨"Status", .str, [Value.vStr "Passed", Value.vStr "Failed"]⟩], 2⟩ :=
  show_expectation_results_row_per_entry [("A", true), ("B", false)] (by decide)

/-- C8 counterexample: on the empty outcome map the code neither returns a
zero-row two-column dataset nor raises a dedicated `EmptyReportError`: it
raises the engine's schema-inference `ValueError`, a third outcome the
claim excludes. -/
theorem show_expectation_results_empty_policy_cex :
    show_expectation_results [] =
      Except.error (Err.valueError "can not infer schema from empty dataset") ∧
    Err.valueError "can not infer schema from empty dataset" ≠ Err.emptyReportError :=
  ⟨by decide, by decide⟩

/-- C8 amended: on the empty outcome map `show_expectation_results` fails
with the engine's schema-inference `ValueError` (no documented module-level
policy is involved); every non-empty outcome map succeeds. -/
theorem show_expectation_results_empty_behavior :
    show_expectation_results [] =
      Except.error (Err.valueError "can not infer schema from empty dataset") ∧
    (∀ m : List (String × Bool), m ≠ [] → (show_expectation_results m).isOk = true) := by
  constructor
  · decide
  · intro m hm
    simp only [show_expectation_results, List.isEmpty_iff, List.map_eq_nil_iff]
    rw [if_neg hm]
    rfl

/-- Witness for C8 amended: a concrete non-empty outcome map succeeds. -/
theorem show_expectation_results_empty_behavior_witness :
    (show_expectation_results [("A", true)]).isOk = true :=
  show_expectation_results_empty_behavior.2 [("A", true)] (by decide)

/-- C1 counterexample: on column values [-5, 50, 95] with range [0, 100] the
min sub-check fails, yet the entire return value of
`expect_column_min_max_range` carries exactly one `ExpectationResult` — the
passing max-check result.  The min-check result is discarded at
src/src/utils.py line 119 and is not observable by the caller, so the two
sub-check results are not both returned as the claim states. -/
theorem expect_column_min_max_range_single_result_cex :
    (expect_column_min_to_be_between (init_df (dsX [-5, 50, 95])) "x" 0 100).map
        (fun p => p.1) =
      Except.ok ⟨"expect_column_min_to_be_between", false⟩ ∧
    (expect_column_min_max_range (init_df (dsX [-5, 50, 95])) "x" 0 100).map
        (fun p => p.1) =
      Except.ok ⟨"expect_column_max_to_be_between", true⟩ :=
  ⟨by decide, by decide⟩

/-- C1 amended: `expect_column_min_max_range` evaluates the min sub-check
first, discards its result (only its recording in the context's suite
survives), and returns only the max sub-check's result; on [5, 50, 95]
within [0, 100] the single returned result passes, and on [5, 50, 150] it
fails. -/
theorem expect_column_min_max_range_returns_only_max :
    (∀ (ds : SparkDFDataset) (c : String) (a b : Int) (col : ColumnData),
      getColumn ds.spark_df c = some col →
      expect_column_min_max_range ds c a b =
        Except.ok (⟨"expect_column_max_to_be_between",
            match (intValues col.values).max? with
            | none => false
            | some mx => decide (a ≤ mx ∧ mx ≤ b)⟩,
          recordExpectation (recordExpectation ds ⟨.columnMinBetween c, [a, b]⟩)
            ⟨.columnMaxBetween c, [a, b]⟩)) ∧
    (expect_column_min_max_range (init_df (dsX [5, 50, 95])) "x" 0 100).map
        (fun p => p.1.success) = Except.ok true ∧
    (expect_column_min_max_range (init_df (dsX [5, 50, 150])) "x" 0 100).map
        (fun p => p.1.success) = Except.ok false := by
  refine ⟨?_, by decide, by decide⟩
  intro ds c a b col hg
  have h1 : expect_column_min_to_be_between ds c a b =
      Except.ok (⟨"expect_column_min_to_be_between",
          match (intValues col.values).min? with
          | none => false
          | some mn => decide (a ≤ mn ∧ mn ≤ b)⟩,
        recordExpectation ds ⟨.columnMinBetween c, [a, b]⟩) := by
    simp [expect_column_min_to_be_between, hg]
  rw [expect_column_min_max_range, h1]
  simp [expect_column_max_to_be_between, recordExpectation, hg]

/-- Witness for C1 amended at the one-value column [7]: the call returns the
max-check result and records both sub-checks in the suite. -/
theorem expect_column_min_max_range_returns_only_max_witness :
    getColumn (init_df (dsX [7])).spark_df "x" = some ⟨"x", .int, [.vInt 7]⟩ ∧
    expect_column_min_max_range (init_df (dsX [7])) "x" 0 100 =
      Except.ok (⟨"expect_column_max_to_be_between",
          match (intValues [Value.vInt 7]).max? with
          | none => false
          | some mx => decide ((0 : Int) ≤ mx ∧ mx ≤ 100)⟩,
        recordExpectation (recordExpectation (init_df (dsX [7]))
            ⟨.columnMinBetween "x", [0, 100]⟩)
          ⟨.columnMaxBetween "x", [0, 100]⟩) :=
  ⟨by decide,
   expect_column_min_max_range_returns_only_max.1 (init_df (dsX [7])) "x" 0 100
     ⟨"x", .int, [.vInt 7]⟩ (by decide)⟩

/-- C9 counterexample: running the column-existence check on a fresh
validation context leaves the wrapped dataframe intact but returns a
context whose expectation suite now records the check, so the validation
context is NOT unchanged after the call. -/
theorem expectation_check_context_changed_cex :
    expect_column_existence (init_df (dsX [1])) "x" =
      Except.ok (⟨"expect_column_to_exist", true⟩,
        ⟨dsX [1], [⟨.columnToExist "x", []⟩]⟩) ∧
    (⟨dsX [1], [⟨.columnToExist "x", []⟩]⟩ : SparkDFDataset) ≠ init_df (dsX [1]) :=
  ⟨by decide, by decide⟩

/-- C9 amended: every expectation check is a pure read of the wrapped
dataframe — recording an expectation never changes the `spark_df`
component, and whenever a check returns, the returned context is exactly
the input context with the check's configuration recorded in its suite
(two configurations for the min/max range check); the dataframe itself is
never modified, but the context is. -/
theorem expectation_checks_dataframe_read_only :
    (∀ (ds : SparkDFDataset) (cfg : ExpectationConfig),
      (recordExpectation ds cfg).spark_df = ds.spark_df) ∧
    (∀ (ds : SparkDFDataset) (a b : Int) (r : ExpectationResult) (ds2 : SparkDFDataset),
      expect_table_column_count ds a b = Except.ok (r, ds2) →
      ds2 = recordExpectation ds ⟨.tableColumnCount, [a, b]⟩) ∧
    (∀ (ds : SparkDFDataset) (a b : Int) (r : ExpectationResult) (ds2 : SparkDFDataset),
      expect_table_row_count ds a b = Except.ok (r, ds2) →
      ds2 = recordExpectation ds ⟨.tableRowCount, [a, b]⟩) ∧
    (∀ (ds : SparkDFDataset) (c : String) (r : ExpectationResult) (ds2 : SparkDFDataset),
      expect_column_existence ds c = Except.ok (r, ds2) →
      ds2 = recordExpectation ds ⟨.columnToExist c, []⟩) ∧
    (∀ (ds : SparkDFDataset) (L : List String) (r : ExpectationResult) (ds2 : SparkDFDataset),
      expect_ordered_column_list ds L = Except.ok (r, ds2) →
      ds2 = recordExpectation ds ⟨.columnsMatchOrderedList, []⟩) ∧
    (∀ (ds : SparkDFDataset) (c : String) (a b : Int) (r : ExpectationResult)
        (ds2 : SparkDFDataset),
      expect_column_value_range ds c a b = Except.ok (r, ds2) →
      ds2 = recordExpectation ds ⟨.columnValuesBetween c, [a, b]⟩) ∧
    (∀ (ds : SparkDFDataset) (c : String) (a b : Int) (r : ExpectationResult)
        (ds2 : SparkDFDataset),
      expect_column_min_max_range ds c a b = Except.ok (r, ds2) →
      ds2 = recordExpectation (recordExpectation ds ⟨.columnMinBetween c, [a, b]⟩)
        ⟨.columnMaxBetween c, [a, b]⟩) ∧
    (∀ (ds : SparkDFDataset) (c : String) (r : ExpectationResult) (ds2 : SparkDFDataset),
      expect_unique_column_values ds c = Except.ok (r, ds2) →
      ds2 = recordExpectation ds ⟨.columnValuesUnique c, []⟩) := by
  refine ⟨fun ds cfg => rfl, ?_, ?_, ?_, ?_, ?_, ?_, ?_⟩
  · intro ds a b r ds2 h
    unfold expect_table_column_count expect_table_column_count_to_be_between at h
    split at h
    · simp at h
    · simp at h
      exact h.2.symm
  · intro ds a b r ds2 h
    unfold expect_table_row_count expect_table_row_count_to_be_between at h
    split at h
    · simp at h
    · simp at h
      exact h.2.symm
  · intro ds c r ds2 h
    unfold expect_column_existence expect_column_to_exist at h
    simp at h
    exact h.2.symm
  · intro ds L r ds2 h
    unfold expect_ordered_column_list expect_table_columns_to_match_ordered_list at h
    simp at h
    exact h.2.symm
  · intro ds c a b r ds2 h
    unfold expect_column_value_range expect_column_values_to_be_between at h
    cases hg : getColumn ds.spark_df c with
    | none => rw [hg] at h; simp at h
    | some col =>
      rw [hg] at h
      simp at h
      exact h.2.symm
  · intro ds c a b r ds2 h
    unfold expect_column_min_max_range expect_column_min_to_be_between at h
    cases hg : getColumn ds.spark_df c with
    | none => rw [hg] at h; simp at h
    | some col =>
      rw [hg] at h
      simp only [] at h
      unfold expect_column_max_to_be_between at h
      rw [recordExpectation_spark_df, hg] at h
      simp at h
      exact h.2.symm
  · intro ds c r ds2 h
    unfold expect_unique_column_values expect_column_values_to_be_unique at h
    cases hg : getColumn ds.spark_df c with
    | none => rw [hg] at h; simp at h
    | some col =>
      rw [hg] at h
      simp at h
      exact h.2.symm

/-- Witness for C9 amended: the column-existence check at a concrete input
returns exactly the input context with the check recorded, and recording
preserves the wrapped dataframe. -/
theorem expectation_checks_dataframe_read_only_witness :
    (⟨dsX [2], [⟨.columnToExist "x", []⟩]⟩ : SparkDFDataset) =
      recordExpectation (init_df (dsX [2])) ⟨.columnToExist "x", []⟩ ∧
    (recordExpectation (init_df (dsX [2])) ⟨.columnToExist "x", []⟩).spark_df =
      (init_df (dsX [2])).spark_df :=
  ⟨expectation_checks_dataframe_read_only.2.2.2.1 (init_df (dsX [2])) "x"
     ⟨"expect_column_to_exist", true⟩ ⟨dsX [2], [⟨.columnToExist "x", []⟩]⟩ (by decide),
   expectation_checks_dataframe_read_only.1 (init_df (dsX [2])) ⟨.columnToExist "x", []⟩⟩

end DataQuality
